import Mathlib

/-! Shallow embedding of the Slack community bot's message-analysis and scoring
pipeline (src/slack_bot_prototype): the scoring engine (src/scoring_system.py),
the Gemini classification client (src/content_analyzer.py) and the channel
processor (src/message_processor.py), with proofs about the embedded code.

Python strings are modeled as Lean `String`; the handful of Python string
operations the code uses (`sep in s`, `s.split(sep)`, `s.strip()`, `s.lower()`)
are implemented below by structural recursion over the character list so that
concrete runs reduce inside the kernel. Python floats only ever hold exact
values here (integer-valued scores, the 4.5-second interval), so they are
modeled as `ℚ`. Python dicts that are used as insertion-ordered maps
(`ScoringSystem.users`, json payloads) are modeled as association lists in
insertion order, which is exactly the iteration order Python guarantees. -/

namespace SlackBot

/-! ### Python string primitives -/

/-- Worker for `pySplit`: walks the haystack one character at a time; `skip`
counts characters of an already-matched separator still to be consumed, `acc`
holds the current (reversed) fragment. Implements CPython's non-overlapping
left-to-right `str.split(sep)` scan. -/
def pySplitAux (sep : List Char) : List Char → Nat → List Char → List (List Char)
  | [], _, acc => [acc.reverse]
  | _ :: rest, skip + 1, acc => pySplitAux sep rest skip acc
  | c :: rest, 0, acc =>
    if sep.isPrefixOf (c :: rest) then
      acc.reverse :: pySplitAux sep rest (sep.length - 1) []
    else
      pySplitAux sep rest 0 (c :: acc)

/-- Python `s.split(sep)` for a nonempty separator (the only way the code calls
it; Python raises on an empty separator, here it degenerates to `[s]`). -/
def pySplit (sep s : String) : List String :=
  if sep.data.isEmpty then [s] else (pySplitAux sep.data s.data 0 []).map String.mk

/-- Python `needle in haystack` on strings: the empty needle is always found,
and a nonempty needle occurs iff splitting on it produces more than one part. -/
def pyIn (needle haystack : String) : Bool :=
  needle.data.isEmpty || (pySplit needle haystack).length != 1

/-- Python `s.strip()` (whitespace variant, which is how the code calls it). -/
def pyStrip (s : String) : String :=
  String.mk (((s.data.dropWhile Char.isWhitespace).reverse.dropWhile
    Char.isWhitespace).reverse)

/-- Python `s.lower()`; the code only ever lowers ASCII letters mixed with
Japanese text, which `Char.toLower` treats identically. -/
def pyLower (s : String) : String :=
  String.mk (s.data.map Char.toLower)

/-! ### Scoring engine — src/scoring_system.py -/

/-- The `UserScore` dataclass. Counts are Python ints; `total_score` is the
stored float field (default `0.0`), distinct from the derived score computed by
`calculate_total_score`. -/
structure UserScore where
  user_id : String
  user_name : String
  post_count : Int
  positive_count : Int
  reaction_count : Int
  violation_count : Int
  total_score : ℚ
  deriving DecidableEq

/-- `UserScore.calculate_total_score`: post*1.0 + positive*5.0 + reaction*2.0
- violation*10.0. -/
def UserScore.calculate_total_score (u : UserScore) : ℚ :=
  (u.post_count : ℚ) * 1.0 + (u.positive_count : ℚ) * 5.0
    + (u.reaction_count : ℚ) * 2.0 - (u.violation_count : ℚ) * 10.0

/-- `ScoringSystem.users`: a dict keyed by `user_id`, modeled as a list in
insertion order (first-activity order). -/
abbrev ScoringUsers := List UserScore

/-- `ScoringSystem.add_user_activity`: if the user is unseen, a fresh record is
created (counts zero, this call's `user_name`), then in either case the four
counts are incremented by the arguments. `user_name` of a seen user is never
touched. -/
def add_user_activity (users : ScoringUsers) (user_id user_name : String)
    (post_count positive_count reaction_received violation_count : Int) :
    ScoringUsers :=
  if users.any (fun u => decide (u.user_id = user_id)) then
    users.map (fun u =>
      if u.user_id = user_id then
        { u with
          post_count := u.post_count + post_count
          positive_count := u.positive_count + positive_count
          reaction_count := u.reaction_count + reaction_received
          violation_count := u.violation_count + violation_count }
      else u)
  else
    users ++ [{ user_id := user_id, user_name := user_name
                post_count := post_count, positive_count := positive_count
                reaction_count := reaction_received
                violation_count := violation_count, total_score := 0 }]

/-- The comparison under `sorted(self.users.values(), key=lambda u:
u.calculate_total_score(), reverse=True)`: `a` may stay before `b` iff `a`'s
derived score is at least `b`'s. -/
def rank_key_ge (a b : UserScore) : Prop :=
  b.calculate_total_score ≤ a.calculate_total_score

instance : DecidableRel rank_key_ge := fun a b =>
  inferInstanceAs (Decidable (b.calculate_total_score ≤ a.calculate_total_score))

instance : IsTotal UserScore rank_key_ge :=
  ⟨fun _ _ => le_total _ _⟩

instance : IsTrans UserScore rank_key_ge :=
  ⟨fun _ _ _ hab hbc => le_trans hbc hab⟩

/-- `ScoringSystem.calculate_rankings`: Python's `sorted` is a stable sort;
with `reverse=True` equal-key elements keep their original relative order, so
it coincides with a stable insertion sort under `rank_key_ge`. -/
def calculate_rankings (users : ScoringUsers) : List UserScore :=
  users.insertionSort rank_key_ge

/-- One value of the json object written by `ScoringSystem.save_to_file` (the
per-user dict with keys user_name, post_count, positive_count, reaction_count,
violation_count, total_score). -/
structure SavedScore where
  user_name : String
  post_count : Int
  positive_count : Int
  reaction_count : Int
  violation_count : Int
  total_score : ℚ
  deriving DecidableEq

/-- `ScoringSystem.save_to_file`, modeled up to the byte-level json encoding:
the structured payload it serializes, in dict iteration order. -/
def save_to_data (users : ScoringUsers) : List (String × SavedScore) :=
  users.map (fun score =>
    (score.user_id,
      { user_name := score.user_name, post_count := score.post_count
        positive_count := score.positive_count
        reaction_count := score.reaction_count
        violation_count := score.violation_count
        total_score := score.total_score }))

/-- `ScoringSystem.load_from_file` on a successfully parsed payload: rebuilds
`self.users` entry by entry (every key is present in saved data, so the
`.get(..., 0)` defaults never fire). -/
def load_from_data (data : List (String × SavedScore)) : ScoringUsers :=
  data.map (fun entry =>
    { user_id := entry.1, user_name := entry.2.user_name
      post_count := entry.2.post_count, positive_count := entry.2.positive_count
      reaction_count := entry.2.reaction_count
      violation_count := entry.2.violation_count
      total_score := entry.2.total_score })

/-! ### Classification client — src/content_analyzer.py -/

/-- The parsed classification payload, with the keys the analyzer's prompt
requests and its error fallback supplies. -/
structure GeminiResult where
  guideline_violation : Int
  violation_reason : Option String
  positive_feedback : Bool
  positive_type : Option String
  contribution_score : ℚ
  deriving DecidableEq

/-- The dict returned from the `except` branch of `analyze_post`. -/
def analyzer_error_result : GeminiResult :=
  { guideline_violation := 0, violation_reason := none
    positive_feedback := false, positive_type := none, contribution_score := 0 }

/-- `self.request_interval = 4.5` (free tier: 15 requests/minute). -/
def request_interval : ℚ := 4.5

/-- The analyzer's mutable state: `self.last_request_time`. -/
structure AnalyzerState where
  last_request_time : ℚ
  deriving DecidableEq

/-- The fenced-code-block extraction inside `analyze_post`:
`result_text.split("```json")[1].split("```")[0]` when a ```json fence is
present, else the analogous bare ``` extraction, else the text unchanged.
The list indexing cannot fail because the branch guard guarantees at least two
split parts. -/
def extract_json_block (result_text : String) : String :=
  if pyIn ("```json") result_text then
    (pySplit ("```") ((pySplit ("```json") result_text).getD 1 (""))).getD 0 ("")
  else if pyIn ("```") result_text then
    (pySplit ("```") ((pySplit ("```") result_text).getD 1 (""))).getD 0 ("")
  else result_text

/-- `ContentAnalyzer.analyze_post`. Wall-clock time is the explicit `clock`
argument; `time.sleep` advances it, nothing else does. The external effects are
oracles: `generate` is the Gemini response text (`none` = the call raised), and
`json_loads` is `json.loads` (`none` = parse error). Returns the result, the
new analyzer state, and the clock at the moment the request was issued (which
is also what `self.last_request_time` is set to, before the `try` block). -/
def analyze_post (st : AnalyzerState) (clock : ℚ) (generate : Option String)
    (json_loads : String → Option GeminiResult) :
    GeminiResult × AnalyzerState × ℚ :=
  let current_time := clock
  let time_since_last_request := current_time - st.last_request_time
  let clock :=
    if time_since_last_request < request_interval then
      clock + (request_interval - time_since_last_request)
    else clock
  let st : AnalyzerState := { last_request_time := clock }
  match generate with
  | none => (analyzer_error_result, st, clock)
  | some response_text =>
      let result_text := pyStrip response_text
      let result_text := extract_json_block result_text
      match json_loads result_text with
      | none => (analyzer_error_result, st, clock)
      | some parsed => (parsed, st, clock)

/-- The clock value at which `analyze_post` issues its request; independent of
the oracles (proved in `analyze_post_issue_oblivious`). -/
def next_issue_time (st : AnalyzerState) (clock : ℚ) : ℚ :=
  (analyze_post st clock none (fun _ => none)).2.2

/-- Issue times of an unbroken sequence of `analyze_post` calls: call `i + 1`
starts the instant call `i` returns (no artificial delay), with the state the
previous call left behind. -/
def issue_time (st : AnalyzerState) (clock : ℚ) : Nat → ℚ
  | 0 => next_issue_time st clock
  | n + 1 =>
      next_issue_time { last_request_time := issue_time st clock n }
        (issue_time st clock n)

/-! ### Channel processor — src/message_processor.py -/

/-- The `user_info` dict attached by `enrich_messages_with_user_info`. -/
structure SlackUserInfo where
  real_name : String
  is_bot : Bool
  deriving DecidableEq

/-- A fetched Slack message, with the fields `_should_analyze` and
`_analyze_message` read (absent dict keys are the falsy defaults: empty text,
no subtype, no user_info). -/
structure SlackMessage where
  user : String
  text : String
  ts : String
  subtype : Option String
  user_info : Option SlackUserInfo
  deriving DecidableEq

/-- The classification dict as consumed by `_analyze_message`, which reads the
keys `guideline_violation` (a 0-100 int, tested for Python truthiness),
`violation_details`, `is_positive` and `positive_details`. -/
structure MessageAnalysis where
  guideline_violation : Int
  violation_details : String
  is_positive : Bool
  positive_details : String
  deriving DecidableEq

/-- An entry of `self.violations`. -/
structure ViolationRecord where
  user_id : String
  user_name : String
  text : String
  timestamp : String
  channel_id : String
  violation_reason : String
  deriving DecidableEq

/-- An entry of `self.positive_messages`. -/
structure PositiveRecord where
  user_id : String
  user_name : String
  text : String
  timestamp : String
  channel_id : String
  positive_type : String
  deriving DecidableEq

/-- The summary dict returned by `process_channel` on a non-empty fetch. -/
structure RunSummary where
  total_messages : Nat
  violations_found : Nat
  positive_messages : Nat
  top_contributors : List UserScore
  deriving DecidableEq

/-- The external collaborators of `MessageProcessor`, as oracles: `analyze` is
`self.analyzer.analyze_post`, `reactions` gives the per-reaction counts from
`self.slack.get_reactions(channel_id, timestamp)`, and `has_notification` is
whether `self.notification_system` was constructed. -/
structure ProcessorCfg where
  analyze : String → MessageAnalysis
  reactions : String → String → List Int
  has_notification : Bool

/-- The mutable fields of `MessageProcessor` the pipeline touches:
`self.scoring.users`, `self.violations`, `self.positive_messages`, plus the
severities of the alerts handed to the notification system (the alert object
itself and its delivery are external I/O that the pipeline ignores). -/
structure ProcessorState where
  scoring : ScoringUsers
  violations : List ViolationRecord
  positive_messages : List PositiveRecord
  alert_severities : List String
  deriving DecidableEq

/-- The state right after `MessageProcessor.__init__`. -/
def initial_processor_state : ProcessorState :=
  { scoring := [], violations := [], positive_messages := []
    alert_severities := [] }

/-- `MessageProcessor._should_analyze`: skip bot authors, messages with a
(truthy) subtype, and messages with falsy (empty) text. -/
def should_analyze (message : SlackMessage) : Bool :=
  if (match message.user_info with
      | some info => info.is_bot
      | none => false) then false
  else if (match message.subtype with
      | some s => !(s.data.isEmpty)
      | none => false) then false
  else if message.text.data.isEmpty then false
  else true

/-- The urgent/critical keyword list hardcoded in `_analyze_message`. -/
def urgent_keywords : List String := ["緊急", "重大", "深刻", "ひどい"]

/-- The problem/inappropriate keyword list hardcoded in `_analyze_message`. -/
def problem_keywords : List String := ["不適切", "問題", "良くない"]

/-- The severity computation inside `_analyze_message`: lower the text, then
`high` on any urgent keyword, else `medium` on any problem keyword, else
`low`. -/
def violation_severity (text : String) : String :=
  let violation_text := pyLower text
  if urgent_keywords.any (fun word => pyIn word violation_text) then "high"
  else if problem_keywords.any (fun word => pyIn word violation_text) then
    "medium"
  else "low"

/-- `MessageProcessor._analyze_message`: classify the text; on a truthy
`guideline_violation` append to `self.violations` (and, when the notification
system exists, derive a severity and send an alert); on `is_positive` append to
`self.positive_messages`; finally sum the reaction counts and record the
activity. The `add_user_activity` call site passes `post_count=1`, the positive
flag and the reaction sum, and leaves `violation_count` at its default `0`. -/
def analyze_message (cfg : ProcessorCfg) (st : ProcessorState)
    (message : SlackMessage) (channel_id : String) : ProcessorState :=
  let text := message.text
  let user_id := message.user
  let user_name :=
    match message.user_info with
    | some info => info.real_name
    | none => user_id
  let timestamp := message.ts
  let analysis := cfg.analyze text
  let st :=
    if analysis.guideline_violation ≠ 0 then
      { st with
        violations := st.violations ++
          [{ user_id := user_id, user_name := user_name, text := text
             timestamp := timestamp, channel_id := channel_id
             violation_reason := analysis.violation_details }]
        alert_severities :=
          if cfg.has_notification then
            st.alert_severities ++ [violation_severity text]
          else st.alert_severities }
    else st
  let st :=
    if analysis.is_positive then
      { st with
        positive_messages := st.positive_messages ++
          [{ user_id := user_id, user_name := user_name, text := text
             timestamp := timestamp, channel_id := channel_id
             positive_type := analysis.positive_details }] }
    else st
  let reaction_count := (cfg.reactions channel_id timestamp).sum
  { st with
    scoring := add_user_activity st.scoring user_id user_name 1
      (if analysis.is_positive then 1 else 0) reaction_count 0 }

/-- The message loop of `process_channel`: each message passing
`_should_analyze` goes through `_analyze_message`, in fetch order. -/
def process_messages (cfg : ProcessorCfg) (st : ProcessorState)
    (messages : List SlackMessage) (channel_id : String) : ProcessorState :=
  messages.foldl
    (fun st message =>
      if should_analyze message then analyze_message cfg st message channel_id
      else st)
    st

/-- `MessageProcessor.process_channel` on an already-fetched, already-enriched
message list: `if not messages: return {}` is the `none` result; otherwise the
loop runs and the summary dict is built, with `top_contributors` the first five
ranking entries. -/
def process_channel (cfg : ProcessorCfg) (st : ProcessorState)
    (messages : List SlackMessage) (channel_id : String) :
    ProcessorState × Option RunSummary :=
  if messages.isEmpty then (st, none)
  else
    let st := process_messages cfg st messages channel_id
    let scores := calculate_rankings st.scoring
    (st, some { total_messages := messages.length
                violations_found := st.violations.length
                positive_messages := st.positive_messages.length
                top_contributors := scores.take 5 })

/-- The violations a message batch contributes on its own (starting from a
fresh processor). -/
def run_violation_records (cfg : ProcessorCfg) (messages : List SlackMessage)
    (channel_id : String) : List ViolationRecord :=
  (process_messages cfg initial_processor_state messages channel_id).violations

/-- The positive-message records a batch contributes on its own. -/
def run_positive_records (cfg : ProcessorCfg) (messages : List SlackMessage)
    (channel_id : String) : List PositiveRecord :=
  (process_messages cfg initial_processor_state messages
    channel_id).positive_messages

/-! ### Helper lemmas -/

/-- Reloading a saved scoring snapshot rebuilds exactly the same records. -/
theorem load_from_data_save_to_data (users : ScoringUsers) :
    load_from_data (save_to_data users) = users := by
  induction users with
  | nil => rfl
  | cons u l ih => simpa [save_to_data, load_from_data] using ih

/-- The timing side of `analyze_post` — the returned clock and recorded
last-request time — does not depend on the response or parsing oracles. -/
theorem analyze_post_issue_oblivious (st : AnalyzerState) (clock : ℚ)
    (generate : Option String) (json_loads : String → Option GeminiResult) :
    (analyze_post st clock generate json_loads).2.2 = next_issue_time st clock ∧
    (analyze_post st clock generate json_loads).2.1 =
      { last_request_time := next_issue_time st clock } := by
  cases generate with
  | none => exact ⟨rfl, rfl⟩
  | some response_text =>
    simp only [analyze_post, next_issue_time]
    cases json_loads (extract_json_block (pyStrip response_text)) <;> simp

/-- Back-to-back calls are spaced by exactly the minimum interval: when the
clock equals the recorded last-request time, the limiter sleeps the full
interval. -/
theorem issue_time_succ (st : AnalyzerState) (clock : ℚ) (n : Nat) :
    issue_time st clock (n + 1) = issue_time st clock n + request_interval := by
  simp [issue_time, next_issue_time, analyze_post, request_interval]
  norm_num

/-- Closed form of the issue-time sequence after the first call. -/
theorem issue_time_formula (st : AnalyzerState) (clock : ℚ) :
    ∀ n : Nat, issue_time st clock n = issue_time st clock 0 + n * request_interval
  | 0 => by simp
  | n + 1 => by
    rw [issue_time_succ, issue_time_formula st clock n]
    push_cast
    ring

/-- Inserting a record whose key equals `q` prepends it to the `q`-filtered
list: elements skipped past have strictly larger keys, so none of them has key
`q`. -/
theorem filter_orderedInsert_key_eq (q : ℚ) (a : UserScore)
    (ha : a.calculate_total_score = q) (l : List UserScore) :
    (l.orderedInsert rank_key_ge a).filter
        (fun u => decide (u.calculate_total_score = q)) =
      a :: l.filter (fun u => decide (u.calculate_total_score = q)) := by
  induction l with
  | nil => simp [List.orderedInsert, ha]
  | cons b l ih =>
    simp only [List.orderedInsert]
    by_cases hb : rank_key_ge a b
    · rw [if_pos hb]
      simp [List.filter_cons, ha]
    · rw [if_neg hb]
      have hq : ¬ b.calculate_total_score = q := fun hc =>
        hb (le_of_eq (hc.trans ha.symm))
      simp [List.filter_cons, hq, ih]

/-- Inserting a record whose key differs from `q` leaves the `q`-filtered list
unchanged. -/
theorem filter_orderedInsert_key_ne (q : ℚ) (a : UserScore)
    (ha : ¬ a.calculate_total_score = q) (l : List UserScore) :
    (l.orderedInsert rank_key_ge a).filter
        (fun u => decide (u.calculate_total_score = q)) =
      l.filter (fun u => decide (u.calculate_total_score = q)) := by
  induction l with
  | nil => simp [List.orderedInsert, ha]
  | cons b l ih =>
    simp only [List.orderedInsert]
    by_cases hb : rank_key_ge a b
    · rw [if_pos hb]
      simp [List.filter_cons, ha]
    · rw [if_neg hb]
      simp [List.filter_cons, ih]

/-- Stability of the ranking sort: restricted to any one derived-score value,
the ranking lists users exactly in state (insertion) order. -/
theorem calculate_rankings_stable_filter (users : ScoringUsers) (q : ℚ) :
    (calculate_rankings users).filter
        (fun u => decide (u.calculate_total_score = q)) =
      users.filter (fun u => decide (u.calculate_total_score = q)) := by
  induction users with
  | nil => rfl
  | cons a l ih =>
    simp only [calculate_rankings, List.insertionSort] at *
    by_cases ha : a.calculate_total_score = q
    · rw [filter_orderedInsert_key_eq q a ha]
      simp [List.filter_cons, ha, ih]
    · rw [filter_orderedInsert_key_ne q a ha]
      simp [List.filter_cons, ha, ih]

/-! ### Claim theorems -/

/-- C4. `calculate_rankings` returns all records (a permutation of the state),
sorted by derived total score descending, and for equal derived scores the
user whose first activity was recorded earlier (earlier in the insertion-
ordered state) comes first: filtering the output to any one score value
reproduces the state order. -/
theorem calculate_rankings_sorted_stable (users : ScoringUsers) :
    (calculate_rankings users).Pairwise
      (fun a b => b.calculate_total_score ≤ a.calculate_total_score) ∧
    (calculate_rankings users).Perm users ∧
    ∀ q : ℚ,
      (calculate_rankings users).filter
          (fun u => decide (u.calculate_total_score = q)) =
        users.filter (fun u => decide (u.calculate_total_score = q)) :=
  ⟨List.sorted_insertionSort rank_key_ge users,
   List.perm_insertionSort rank_key_ge users,
   fun q => calculate_rankings_stable_filter users q⟩

/-- C5. Round-trip: reloading a saved non-empty scoring state yields an engine
with identical rankings, and the derived total score is recomputed from the
counts — it does not depend on the stored `total_score` field. -/
theorem save_load_preserves_rankings (users : ScoringUsers) (hne : users ≠ []) :
    calculate_rankings (load_from_data (save_to_data users)) =
      calculate_rankings users ∧
    ∀ (u : UserScore) (t : ℚ),
      UserScore.calculate_total_score { u with total_score := t } =
        u.calculate_total_score :=
  ⟨by rw [load_from_data_save_to_data], fun u t => rfl⟩

/-- A one-user scoring state whose stored `total_score` (99) disagrees with
its derived score, for the C5 witness. -/
def c5_users : ScoringUsers :=
  [{ user_id := "U9", user_name := "N", post_count := 2, positive_count := 1
     reaction_count := 0, violation_count := 1, total_score := 99 }]

/-- C5 witness: the round-trip theorem applied to a concrete state. -/
theorem save_load_preserves_rankings_witness :
    c5_users ≠ [] ∧
    (calculate_rankings (load_from_data (save_to_data c5_users)) =
        calculate_rankings c5_users ∧
      ∀ (u : UserScore) (t : ℚ),
        UserScore.calculate_total_score { u with total_score := t } =
          u.calculate_total_score) :=
  ⟨by simp [c5_users], save_load_preserves_rankings c5_users (by simp [c5_users])⟩

/-- C8. Severity priority: any urgent/critical keyword in the lowered text
gives `high` (with no side condition on the problem set, so also when a
problem keyword is present); otherwise any problem/inappropriate keyword gives
`medium`; otherwise `low`. -/
theorem violation_severity_priority (text : String) :
    (urgent_keywords.any (fun word => pyIn word (pyLower text)) = true →
      violation_severity text = "high") ∧
    (urgent_keywords.any (fun word => pyIn word (pyLower text)) = false →
      problem_keywords.any (fun word => pyIn word (pyLower text)) = true →
      violation_severity text = "medium") ∧
    (urgent_keywords.any (fun word => pyIn word (pyLower text)) = false →
      problem_keywords.any (fun word => pyIn word (pyLower text)) = false →
      violation_severity text = "low") := by
  refine ⟨fun h1 => ?_, fun h1 h2 => ?_, fun h1 h2 => ?_⟩ <;>
    simp [violation_severity, *]

/-- C8 witness: a text with both an urgent and a problem keyword is `high`, a
text with only a problem keyword is `medium`, a text with neither is `low`. -/
theorem violation_severity_priority_witness :
    (urgent_keywords.any (fun word => pyIn word (pyLower ("緊急の問題です"))) =
        true ∧
      violation_severity ("緊急の問題です") = "high") ∧
    violation_severity ("問題があります") = "medium" ∧
    violation_severity ("こんにちは") = "low" :=
  ⟨⟨by decide, (violation_severity_priority ("緊急の問題です")).1 (by decide)⟩,
   (violation_severity_priority ("問題があります")).2.1 (by decide) (by decide),
   (violation_severity_priority ("こんにちは")).2.2 (by decide) (by decide)⟩

/-- C7. Rate limiting: over any run of `N ≥ 1` back-to-back `analyze_post`
calls (no delay between them, wall-clock time advanced only by `time.sleep`),
consecutive issue times are at least `request_interval = 4.5` apart, and the
span from the first to the last issue time is at least `(N - 1) * 4.5`. -/
theorem rate_limited_call_spacing (st : AnalyzerState) (clock : ℚ) (N : Nat)
    (hN : 1 ≤ N) :
    (∀ i, i + 1 < N →
      issue_time st clock i + request_interval ≤ issue_time st clock (i + 1)) ∧
    ((N : ℚ) - 1) * request_interval ≤
      issue_time st clock (N - 1) - issue_time st clock 0 := by
  constructor
  · intro i _
    rw [issue_time_succ]
  · rw [issue_time_formula st clock (N - 1), Nat.cast_sub hN]
    simp

/-- C7 witness: three back-to-back calls from an arbitrary start state. -/
theorem rate_limited_call_spacing_witness :
    1 ≤ 3 ∧
    (0 + 1 < 3 ∧
      issue_time ⟨0⟩ 0 0 + request_interval ≤ issue_time ⟨0⟩ 0 (0 + 1)) ∧
    ((3 : ℚ) - 1) * request_interval ≤
      issue_time ⟨0⟩ 0 (3 - 1) - issue_time ⟨0⟩ 0 0 :=
  ⟨by decide,
   ⟨by decide, (rate_limited_call_spacing ⟨0⟩ 0 3 (by decide)).1 0 (by decide)⟩,
   (rate_limited_call_spacing ⟨0⟩ 0 3 (by decide)).2⟩

/-- C6. `analyze_post` never raises past its boundary: it is a total function
which returns exactly the safe default result when the generate call raised or
when `json.loads` fails on the fence-stripped text, and otherwise returns the
parsed payload of the fence-stripped text. -/
theorem analyze_post_never_raises (st : AnalyzerState) (clock : ℚ)
    (generate : Option String) (json_loads : String → Option GeminiResult) :
    (generate = none →
      (analyze_post st clock generate json_loads).1 =
        { guideline_violation := 0, violation_reason := none
          positive_feedback := false, positive_type := none
          contribution_score := 0 }) ∧
    (∀ response_text, generate = some response_text →
      json_loads (extract_json_block (pyStrip response_text)) = none →
      (analyze_post st clock generate json_loads).1 =
        { guideline_violation := 0, violation_reason := none
          positive_feedback := false, positive_type := none
          contribution_score := 0 }) ∧
    (∀ response_text parsed, generate = some response_text →
      json_loads (extract_json_block (pyStrip response_text)) = some parsed →
      (analyze_post st clock generate json_loads).1 = parsed) := by
  refine ⟨fun h1 => ?_, fun rt h1 h2 => ?_, fun rt parsed h1 h2 => ?_⟩ <;>
    subst h1 <;>
    simp [analyze_post, analyzer_error_result, *]

/-- A concrete parsed classification payload for the C6 witness. -/
def c6_parsed : GeminiResult :=
  { guideline_violation := 77, violation_reason := some "attack"
    positive_feedback := false, positive_type := none, contribution_score := 2 }

/-- A concrete `json.loads` oracle for the C6 witness: parses exactly the text
the fence-stripping extracts from the fenced response. -/
def c6_json_loads : String → Option GeminiResult := fun s =>
  if s = " PAYLOAD " then some c6_parsed else none

/-- C6 witness: the safety theorem applied at a raising generate call, at an
unparsable response, and at a ```json-fenced parsable response. -/
theorem analyze_post_never_raises_witness :
    (analyze_post ⟨0⟩ 0 none c6_json_loads).1 =
      { guideline_violation := 0, violation_reason := none
        positive_feedback := false, positive_type := none
        contribution_score := 0 } ∧
    c6_json_loads (extract_json_block (pyStrip ("no json"))) = none ∧
    (analyze_post ⟨0⟩ 100 (some "no json") c6_json_loads).1 =
      { guideline_violation := 0, violation_reason := none
        positive_feedback := false, positive_type := none
        contribution_score := 0 } ∧
    c6_json_loads (extract_json_block (pyStrip (" ```json PAYLOAD ``` "))) =
      some c6_parsed ∧
    (analyze_post ⟨0⟩ 100 (some " ```json PAYLOAD ``` ") c6_json_loads).1 =
      c6_parsed :=
  ⟨(analyze_post_never_raises ⟨0⟩ 0 none c6_json_loads).1 rfl,
   by decide,
   (analyze_post_never_raises ⟨0⟩ 100 (some "no json") c6_json_loads).2.1 _ rfl
     (by decide),
   by decide,
   (analyze_post_never_raises ⟨0⟩ 100 (some " ```json PAYLOAD ``` ")
     c6_json_loads).2.2 _ _ rfl (by decide)⟩

/-- One `add_user_activity` call's arguments (for a fixed user id). -/
structure ActivityArgs where
  user_name : String
  post_count : Int
  positive_count : Int
  reaction_received : Int
  violation_count : Int
  deriving DecidableEq

/-- A sequence of `add_user_activity` calls for the same `user_id`, applied in
order. -/
def apply_activity_calls (user_id : String) (users : ScoringUsers)
    (calls : List ActivityArgs) : ScoringUsers :=
  calls.foldl
    (fun users args =>
      add_user_activity users user_id args.user_name args.post_count
        args.positive_count args.reaction_received args.violation_count)
    users

/-- Updating the record of a user id that occurs nowhere touches nothing. -/
theorem map_of_no_match (users : ScoringUsers) (user_id : String)
    (h : ∀ u ∈ users, u.user_id ≠ user_id) (f : UserScore → UserScore) :
    users.map (fun u => if u.user_id = user_id then f u else u) = users := by
  induction users with
  | nil => rfl
  | cons a l ih =>
    rw [List.map_cons, if_neg (h a (List.mem_cons_self a l))]
    exact congrArg (List.cons a) (ih fun u hu => h u (List.mem_cons_of_mem a hu))

/-- The membership test of `add_user_activity` fails on a state without the
user id. -/
theorem any_of_no_match (users : ScoringUsers) (user_id : String)
    (h : ∀ u ∈ users, u.user_id ≠ user_id) :
    users.any (fun u => decide (u.user_id = user_id)) = false := by
  rw [List.any_eq_false]
  intro u hu
  simpa using h u hu

/-- Folding further calls over a state that already holds the user's record
(at the end, after untouched strangers) adds the elementwise sums to that
record and changes nothing else — in particular not `user_name`. -/
theorem apply_activity_calls_present (user_id : String) (users : ScoringUsers)
    (h : ∀ u ∈ users, u.user_id ≠ user_id) :
    ∀ (calls : List ActivityArgs) (r : UserScore), r.user_id = user_id →
      apply_activity_calls user_id (users ++ [r]) calls =
        users ++ [{ r with
          post_count := r.post_count + (calls.map ActivityArgs.post_count).sum
          positive_count :=
            r.positive_count + (calls.map ActivityArgs.positive_count).sum
          reaction_count :=
            r.reaction_count + (calls.map ActivityArgs.reaction_received).sum
          violation_count :=
            r.violation_count + (calls.map ActivityArgs.violation_count).sum }]
  | [], r, hr => by simp [apply_activity_calls]
  | c :: cs, r, hr => by
    have hstep : add_user_activity (users ++ [r]) user_id c.user_name
        c.post_count c.positive_count c.reaction_received c.violation_count =
        users ++ [{ r with
          post_count := r.post_count + c.post_count
          positive_count := r.positive_count + c.positive_count
          reaction_count := r.reaction_count + c.reaction_received
          violation_count := r.violation_count + c.violation_count }] := by
      simp [add_user_activity, List.any_append, hr, List.map_append,
        map_of_no_match users user_id h]
    show apply_activity_calls user_id
        (add_user_activity (users ++ [r]) user_id c.user_name c.post_count
          c.positive_count c.reaction_received c.violation_count) cs = _
    rw [hstep, apply_activity_calls_present user_id users h cs
      { r with
        post_count := r.post_count + c.post_count
        positive_count := r.positive_count + c.positive_count
        reaction_count := r.reaction_count + c.reaction_received
        violation_count := r.violation_count + c.violation_count } hr]
    cases r
    simp [List.map_cons, List.sum_cons, add_assoc]

/-- C3. For any sequence of `add_user_activity` calls sharing one user id,
starting from a state not containing that id, the resulting record's four
counts are the elementwise sums of the call arguments (accumulation, not
overwrite) and its `user_name` is the first call's (later names ignored). -/
theorem add_user_activity_accumulates (user_id : String) (users : ScoringUsers)
    (calls : List ActivityArgs) (h : ∀ u ∈ users, u.user_id ≠ user_id)
    (hne : calls ≠ []) :
    apply_activity_calls user_id users calls =
      users ++ [{ user_id := user_id
                  user_name := (calls.head hne).user_name
                  post_count := (calls.map ActivityArgs.post_count).sum
                  positive_count := (calls.map ActivityArgs.positive_count).sum
                  reaction_count :=
                    (calls.map ActivityArgs.reaction_received).sum
                  violation_count :=
                    (calls.map ActivityArgs.violation_count).sum
                  total_score := 0 }] := by
  match calls, hne with
  | c :: cs, _ =>
    have hfirst : add_user_activity users user_id c.user_name c.post_count
        c.positive_count c.reaction_received c.violation_count =
        users ++ [{ user_id := user_id, user_name := c.user_name
                    post_count := c.post_count
                    positive_count := c.positive_count
                    reaction_count := c.reaction_received
                    violation_count := c.violation_count
                    total_score := 0 }] := by
      simp [add_user_activity, any_of_no_match users user_id h]
    show apply_activity_calls user_id
        (add_user_activity users user_id c.user_name c.post_count
          c.positive_count c.reaction_received c.violation_count) cs = _
    rw [hfirst, apply_activity_calls_present user_id users h cs _ rfl]
    simp [List.map_cons, List.sum_cons]

/-- C3 witness: two calls for the same user with different names; the counts
sum and the first name wins. -/
theorem add_user_activity_accumulates_witness :
    (∀ u ∈ ([] : ScoringUsers), u.user_id ≠ "U1") ∧
    ([⟨"A", 1, 1, 0, 0⟩, ⟨"B", 1, 0, 2, 1⟩] : List ActivityArgs) ≠ [] ∧
    apply_activity_calls "U1" []
        [⟨"A", 1, 1, 0, 0⟩, ⟨"B", 1, 0, 2, 1⟩] =
      [{ user_id := "U1", user_name := "A", post_count := 2
         positive_count := 1, reaction_count := 2, violation_count := 1
         total_score := 0 }] :=
  ⟨by simp, by simp, by
    simpa using add_user_activity_accumulates "U1" []
      [⟨"A", 1, 1, 0, 0⟩, ⟨"B", 1, 0, 2, 1⟩] (by simp) (by simp)⟩

/-- A stub classifier configuration: every message classifies with
`guideline_violation = 30` (a score in 1..50) and no positive flag. -/
def stub_cfg : ProcessorCfg :=
  { analyze := fun _ =>
      { guideline_violation := 30, violation_details := "テスト"
        is_positive := false, positive_details := "" }
    reactions := fun _ _ => []
    has_notification := true }

/-- C9 counterexample: on an empty fetch `process_channel` returns the empty
dict (`none`), which is not a `RunSummary` with zero-valued fields. -/
theorem process_channel_empty_fetch_counterexample :
    (process_channel stub_cfg initial_processor_state [] ("C000")).2 = none ∧
    (process_channel stub_cfg initial_processor_state [] ("C000")).2 ≠
      some { total_messages := 0, violations_found := 0, positive_messages := 0
             top_contributors := [] } :=
  ⟨rfl, by decide⟩

/-- C9 (amended). On an empty fetch `process_channel` does not raise (it is a
total function): it short-circuits, leaves the processor state untouched and
returns the empty dict `{}` (`none`) instead of a zero-filled summary. -/
theorem process_channel_empty_fetch (cfg : ProcessorCfg) (st : ProcessorState)
    (channel_id : String) :
    process_channel cfg st [] channel_id = (st, none) := rfl

/-- On a non-empty fetch, `process_channel` runs the loop and assembles the
summary from the final state. -/
theorem process_channel_nonempty (cfg : ProcessorCfg) (st : ProcessorState)
    (messages : List SlackMessage) (channel_id : String)
    (h : messages.isEmpty = false) :
    process_channel cfg st messages channel_id =
      (process_messages cfg st messages channel_id,
       some { total_messages := messages.length
              violations_found :=
                (process_messages cfg st messages channel_id).violations.length
              positive_messages :=
                (process_messages cfg st messages
                  channel_id).positive_messages.length
              top_contributors :=
                (calculate_rankings
                  (process_messages cfg st messages
                    channel_id).scoring).take 5 }) := by
  simp [process_channel, h]

/-- What one message appends to the violations and positive-message lists
depends only on the message, never on the accumulated state. -/
theorem analyze_message_split (cfg : ProcessorCfg) (st : ProcessorState)
    (message : SlackMessage) (channel_id : String) :
    (analyze_message cfg st message channel_id).violations =
      st.violations ++
        (analyze_message cfg initial_processor_state message
          channel_id).violations ∧
    (analyze_message cfg st message channel_id).positive_messages =
      st.positive_messages ++
        (analyze_message cfg initial_processor_state message
          channel_id).positive_messages := by
  constructor <;>
  · simp only [analyze_message, initial_processor_state]
    split_ifs <;> simp

/-- The violations accumulated by a batch split into the starting list plus
the batch's own contribution. -/
theorem process_messages_violations (cfg : ProcessorCfg) (channel_id : String) :
    ∀ (messages : List SlackMessage) (st : ProcessorState),
      (process_messages cfg st messages channel_id).violations =
        st.violations ++ run_violation_records cfg messages channel_id
  | [], st => by
    simp [process_messages, run_violation_records, initial_processor_state]
  | m :: ms, st => by
    show (process_messages cfg
        (if should_analyze m then analyze_message cfg st m channel_id else st)
        ms channel_id).violations = _
    rw [process_messages_violations cfg channel_id ms]
    conv_rhs =>
      rw [show run_violation_records cfg (m :: ms) channel_id =
        (process_messages cfg
          (if should_analyze m then
            analyze_message cfg initial_processor_state m channel_id
          else initial_processor_state) ms channel_id).violations from rfl]
    conv_rhs => rw [process_messages_violations cfg channel_id ms]
    by_cases hm : should_analyze m
    · rw [if_pos hm, if_pos hm, (analyze_message_split cfg st m channel_id).1]
      simp [run_violation_records, List.append_assoc]
    · rw [if_neg hm, if_neg hm]
      simp [initial_processor_state]

/-- The positive messages accumulated by a batch split the same way. -/
theorem process_messages_positives (cfg : ProcessorCfg) (channel_id : String) :
    ∀ (messages : List SlackMessage) (st : ProcessorState),
      (process_messages cfg st messages channel_id).positive_messages =
        st.positive_messages ++ run_positive_records cfg messages channel_id
  | [], st => by
    simp [process_messages, run_positive_records, initial_processor_state]
  | m :: ms, st => by
    show (process_messages cfg
        (if should_analyze m then analyze_message cfg st m channel_id else st)
        ms channel_id).positive_messages = _
    rw [process_messages_positives cfg channel_id ms]
    conv_rhs =>
      rw [show run_positive_records cfg (m :: ms) channel_id =
        (process_messages cfg
          (if should_analyze m then
            analyze_message cfg initial_processor_state m channel_id
          else initial_processor_state) ms channel_id).positive_messages
        from rfl]
    conv_rhs => rw [process_messages_positives cfg channel_id ms]
    by_cases hm : should_analyze m
    · rw [if_pos hm, if_pos hm, (analyze_message_split cfg st m channel_id).2]
      simp [run_positive_records, List.append_assoc]
    · rw [if_neg hm, if_neg hm]
      simp [initial_processor_state]

/-- C10. The `violations` and `positive_messages` accumulators live on the
processor instance (set in `__init__`) and `process_channel` never resets
them: for two consecutive runs on one instance, the second returned summary
reports first-run totals plus the second batch's own contribution — the totals
over both runs, not per-invocation counts — and its `top_contributors` ranks
the scoring state threaded through both runs. -/
theorem accumulators_persist_across_runs (cfg : ProcessorCfg)
    (messages1 messages2 : List SlackMessage) (ch1 ch2 : String)
    (h1 : messages1 ≠ []) (h2 : messages2 ≠ []) :
    ∃ s1 s2 : RunSummary,
      (process_channel cfg initial_processor_state messages1 ch1).2 = some s1 ∧
      (process_channel cfg
          (process_channel cfg initial_processor_state messages1 ch1).1
          messages2 ch2).2 = some s2 ∧
      s2.violations_found =
        s1.violations_found + (run_violation_records cfg messages2 ch2).length ∧
      s2.positive_messages =
        s1.positive_messages + (run_positive_records cfg messages2 ch2).length ∧
      s2.top_contributors =
        (calculate_rankings
          (process_messages cfg
            (process_messages cfg initial_processor_state messages1 ch1)
            messages2 ch2).scoring).take 5 := by
  have e1 : messages1.isEmpty = false := by
    simpa [List.isEmpty_iff] using h1
  have e2 : messages2.isEmpty = false := by
    simpa [List.isEmpty_iff] using h2
  rw [process_channel_nonempty cfg initial_processor_state messages1 ch1 e1]
  rw [process_channel_nonempty cfg
    (process_messages cfg initial_processor_state messages1 ch1) messages2 ch2
    e2]
  refine ⟨_, _, rfl, rfl, ?_, ?_, rfl⟩
  · rw [process_messages_violations cfg ch2 messages2]
    simp
  · rw [process_messages_positives cfg ch2 messages2]
    simp

/-- First message of the end-to-end scenario: U1 ("A") thanks the group. -/
def c1_message_1 : SlackMessage :=
  { user := "U1", text := "ありがとうございます！", ts := "1", subtype := none
    user_info := some { real_name := "A", is_bot := false } }

/-- Second message of the scenario: U2 ("B") belittles a member. -/
def c1_message_2 : SlackMessage :=
  { user := "U2", text := "こんな簡単なこともわからないの？", ts := "2"
    subtype := none, user_info := some { real_name := "B", is_bot := false } }

/-- The two-message fetch of the end-to-end scenario. -/
def c1_messages : List SlackMessage := [c1_message_1, c1_message_2]

/-- The scenario's stub classifier: violation score 0 and positive for the
first text, violation score 80 and not positive for the second. -/
def c1_analyze : String → MessageAnalysis := fun text =>
  if text = "ありがとうございます！" then
    { guideline_violation := 0, violation_details := "", is_positive := true
      positive_details := "" }
  else if text = "こんな簡単なこともわからないの？" then
    { guideline_violation := 80, violation_details := "", is_positive := false
      positive_details := "" }
  else
    { guideline_violation := 0, violation_details := "", is_positive := false
      positive_details := "" }

/-- The scenario configuration: stub classifier, zero reactions. -/
def c1_cfg : ProcessorCfg :=
  { analyze := c1_analyze, reactions := fun _ _ => []
    has_notification := false }

/-- U1's scoring record after the scenario run. -/
def c1_u1 : UserScore :=
  { user_id := "U1", user_name := "A", post_count := 1, positive_count := 1
    reaction_count := 0, violation_count := 0, total_score := 0 }

/-- U2's scoring record after the scenario run: `violation_count` stays 0
because `_analyze_message` never passes a violation count to the scoring
engine. -/
def c1_u2 : UserScore :=
  { user_id := "U2", user_name := "B", post_count := 1, positive_count := 0
    reaction_count := 0, violation_count := 0, total_score := 0 }

/-- C1. Running the two-message scenario: the summary reports totalMessages=2,
violationsFound=1, positiveMessages=1 and ranks U1 above U2 with U1's derived
score 6; but U2's derived score is 1, not the claimed -9, because the
violation never reaches the scoring engine. -/
theorem end_to_end_scenario_eval :
    (process_channel c1_cfg initial_processor_state c1_messages ("C1")).2 =
      some { total_messages := 2, violations_found := 1, positive_messages := 1
             top_contributors := [c1_u1, c1_u2] } ∧
    c1_u1.calculate_total_score = 6 ∧
    c1_u2.calculate_total_score = 1 ∧
    ((1 : ℚ) ≠ -9) := by
  have h12 : rank_key_ge c1_u1 c1_u2 := by
    show c1_u2.calculate_total_score ≤ c1_u1.calculate_total_score
    norm_num [UserScore.calculate_total_score, c1_u1, c1_u2]
  have hrank : calculate_rankings [c1_u1, c1_u2] = [c1_u1, c1_u2] := by
    simp only [calculate_rankings, List.insertionSort, List.orderedInsert]
    rw [if_pos h12]
  have hrun : process_messages c1_cfg initial_processor_state c1_messages
      ("C1") =
      { scoring := [c1_u1, c1_u2]
        violations := [{ user_id := "U2", user_name := "B"
                         text := "こんな簡単なこともわからないの？"
                         timestamp := "2", channel_id := "C1"
                         violation_reason := "" }]
        positive_messages := [{ user_id := "U1", user_name := "A"
                                text := "ありがとうございます！"
                                timestamp := "1", channel_id := "C1"
                                positive_type := "" }]
        alert_severities := [] } := by decide
  refine ⟨?_, by norm_num [UserScore.calculate_total_score, c1_u1],
    by norm_num [UserScore.calculate_total_score, c1_u2], by norm_num⟩
  rw [process_channel_nonempty c1_cfg initial_processor_state c1_messages
    ("C1") (by decide), hrun]
  simp [hrank, c1_messages]

/-- The single test message for the violation-threshold check. -/
def c2_message : SlackMessage :=
  { user := "U3", text := "テスト投稿", ts := "3", subtype := none
    user_info := some { real_name := "C", is_bot := false } }

/-- C2. A message whose classification carries `guideline_violation = 30` — a
score not greater than 50 — is nonetheless recorded as a violation
(violationsFound = 1): the processor tests the score for Python truthiness,
not against the 50 threshold. -/
theorem violation_decision_truthy_eval :
    (process_channel stub_cfg initial_processor_state [c2_message]
        ("C002")).2 =
      some { total_messages := 1, violations_found := 1, positive_messages := 0
             top_contributors :=
               [{ user_id := "U3", user_name := "C", post_count := 1
                  positive_count := 0, reaction_count := 0
                  violation_count := 0, total_score := 0 }] } ∧
    ¬ ((30 : Int) > 50) :=
  ⟨by decide, by decide⟩

/-- C10 witness: the scenario split into two single-message runs on the same
processor instance. -/
theorem accumulators_persist_across_runs_witness :
    ([c1_message_1] : List SlackMessage) ≠ [] ∧
    ([c1_message_2] : List SlackMessage) ≠ [] ∧
    (∃ s1 s2 : RunSummary,
      (process_channel c1_cfg initial_processor_state [c1_message_1]
          ("C1")).2 = some s1 ∧
      (process_channel c1_cfg
          (process_channel c1_cfg initial_processor_state [c1_message_1]
            ("C1")).1 [c1_message_2] ("C1")).2 = some s2 ∧
      s2.violations_found =
        s1.violations_found +
          (run_violation_records c1_cfg [c1_message_2] ("C1")).length ∧
      s2.positive_messages =
        s1.positive_messages +
          (run_positive_records c1_cfg [c1_message_2] ("C1")).length ∧
      s2.top_contributors =
        (calculate_rankings
          (process_messages c1_cfg
            (process_messages c1_cfg initial_processor_state [c1_message_1]
              ("C1")) [c1_message_2] ("C1")).scoring).take 5) :=
  ⟨by simp, by simp,
   accumulators_persist_across_runs c1_cfg [c1_message_1] [c1_message_2]
     ("C1") ("C1") (by simp) (by simp)⟩

end SlackBot
